import Mathlib

/-!
Verification of `database_manager.py` (toadDB): a facade over a SQLite
store with local identifier validation, SQL-text assembly, and
error propagation.

The facade's own logic (validation order, Python truthiness branches,
SQL string assembly, try/except re-raise, commit placement) is embedded
faithfully from the source.  The underlying store (`sqlite3`) is an
external collaborator, so its behaviour on the statements the facade
issues is modelled explicitly from the spec (sections 3, 4 and 7) and
from sqlite's documented semantics; those definitions carry doc
comments saying so.
-/

set_option autoImplicit false

/-- Character test for the first character of a Python identifier
(ASCII fragment: a letter or an underscore).  Faithful to
`str.isidentifier` on ASCII input, which is the domain of every
identifier this repository manipulates. -/
def isIdentStart (c : Char) : Bool := c.isAlpha || c == '_'

/-- Character test for a non-initial character of a Python identifier
(ASCII fragment: a letter, a digit or an underscore). -/
def isIdentCont (c : Char) : Bool := c.isAlphanum || c == '_'

/-- Embedding of Python `str.isidentifier` (ASCII fragment): non-empty,
first character a letter or underscore, remaining characters letters,
digits or underscores. -/
def pyIsIdentifier (s : String) : Bool :=
  match s.data with
  | [] => false
  | c :: cs => isIdentStart c && cs.all isIdentCont

/-- Embedding of Python `str.endswith` at the character-list level. -/
def strEndsWith (s suffix : String) : Bool :=
  List.isSuffixOf suffix.data s.data

/-- A scalar SQL value (the repository's demo uses integers and text). -/
inductive SqlValue where
  | int (i : Int)
  | text (s : String)
  deriving DecidableEq, Repr

/-- A row, an ordered sequence of scalar values (Python tuple). -/
abbrev Row := List SqlValue

/-- Errors surfaced by the underlying store, i.e. `sqlite3.Error`.
Modelled from the spec: StoreError covers connection failure, missing
table, arity mismatch between insert values and table columns, and
operating on a closed connection. -/
inductive StoreErr where
  | connectFailed
  | closedDatabase
  | noSuchTable (t : String)
  | arityMismatch (t : String)
  deriving DecidableEq, Repr

/-- The error taxonomy of the facade: `validation` embeds the local
`ValueError`s raised by the `_validate_*` helpers, `store` embeds a
re-raised `sqlite3.Error`. -/
inductive DBError where
  | validation (msg : String)
  | store (e : StoreErr)
  deriving DecidableEq, Repr

/-- One table of the store: its name, its column count (arity), and its
rows in insertion order.  Modelled from the spec: rows are ordered
sequences positionally matched to the column order. -/
structure StoredTable where
  name : String
  arity : Nat
  rows : List Row
  deriving DecidableEq, Repr

/-- The state of the store behind the facade's connection: whether the
connection is open, and the tables.  Modelled from the spec: the facade
holds at most one connection, created at construction and released on
close. -/
structure DBState where
  connOpen : Bool
  tables : List StoredTable
  deriving DecidableEq, Repr

/-- The store's parse of the statements the facade builds (the only
statement shapes this code ever issues). -/
inductive Stmt where
  | createTable (t : String) (cols : List String)
  | insertRow (t : String) (vals : Row)
  | select (t : String) (cond : Option String)
  deriving DecidableEq, Repr

/-- Low-level events observable at the store boundary: a
`cursor.execute` with the statement text and optional parameter tuple,
a `connection.commit`, a `connection.close`. -/
inductive StoreEvent where
  | execute (sql : String) (data : Option Row)
  | commit
  | close
  deriving DecidableEq, Repr

/-- The outcome of one facade operation: the returned value or raised
error, the store state afterwards, and the trace of store-boundary
events in order. -/
structure OpResult (α : Type) where
  res : Except DBError α
  st : DBState
  events : List StoreEvent
  deriving Repr

instance instDecEqExcept {ε α : Type} [DecidableEq ε] [DecidableEq α] :
    DecidableEq (Except ε α)
  | .error a, .error b =>
    if h : a = b then isTrue (by rw [h]) else isFalse (fun hh => by cases hh; exact h rfl)
  | .error _, .ok _ => isFalse (fun hh => by cases hh)
  | .ok _, .error _ => isFalse (fun hh => by cases hh)
  | .ok a, .ok b =>
    if h : a = b then isTrue (by rw [h]) else isFalse (fun hh => by cases hh; exact h rfl)

instance instDecEqOpResult {α : Type} [DecidableEq α] : DecidableEq (OpResult α) :=
  fun a b =>
    match a, b with
    | ⟨r1, s1, e1⟩, ⟨r2, s2, e2⟩ =>
      if h : r1 = r2 ∧ s1 = s2 ∧ e1 = e2 then
        isTrue (by obtain ⟨h1, h2, h3⟩ := h; subst h1; subst h2; subst h3; rfl)
      else
        isFalse (fun hh => by cases hh; exact h ⟨rfl, rfl, rfl⟩)

/-- Embedding of `DatabaseManager._validate_db_name`: the name must end
with `.db` (the `isinstance(str)` check is enforced by typing). -/
def _validate_db_name (db_name : String) : Option DBError :=
  if strEndsWith db_name ".db" then none
  else some (.validation "Database name must end with .db.")

/-- Embedding of `DatabaseManager._validate_table_name`: the name must
satisfy `str.isidentifier`. -/
def _validate_table_name (table_name : String) : Option DBError :=
  if pyIsIdentifier table_name then none
  else some (.validation "Table name must be a valid identifier.")

/-- Embedding of `DatabaseManager._validate_column_names`: every entry
of `columns` must itself satisfy `str.isidentifier`; the first failing
entry raises. -/
def _validate_column_names : List String → Option DBError
  | [] => none
  | c :: rest =>
    if pyIsIdentifier c then _validate_column_names rest
    else some (.validation "Column name must be a valid identifier.")

/-- First table of the store named `t`, as sqlite resolves table
names.  Modelled from the spec (store collaborator). -/
def getTable (st : DBState) (t : String) : Option StoredTable :=
  st.tables.find? (fun tb => tb.name == t)

/-- Append row `r` to the table named `t`.  Modelled from the spec:
insertion appends one row, preserving insertion order. -/
def addRow (st : DBState) (t : String) (r : Row) : DBState :=
  { st with
    tables := st.tables.map (fun tb =>
      if tb.name == t then { tb with rows := tb.rows ++ [r] } else tb) }

/-- Modelled from the spec: the store's execution of the three
statement shapes the facade issues.  Any statement on a closed
connection fails (sqlite `ProgrammingError`, a `sqlite3.Error`);
`CREATE TABLE IF NOT EXISTS` is a no-op when the table exists;
`INSERT` appends one row after the store's own arity check;
`SELECT *` returns the rows in order, filtered by the `WHERE`
predicate when one is present.  The predicate evaluator `ev` is a
parameter: the facade never parses conditions, it hands them to the
store verbatim. -/
def storeExec (ev : String → Row → Bool) (st : DBState) :
    Stmt → Except StoreErr (List Row × DBState)
  | .createTable t cols =>
    if st.connOpen then
      match getTable st t with
      | some _ => .ok ([], st)
      | none => .ok ([], { st with tables := st.tables ++ [⟨t, cols.length, []⟩] })
    else .error .closedDatabase
  | .insertRow t vals =>
    if st.connOpen then
      match getTable st t with
      | none => .error (.noSuchTable t)
      | some tb =>
        if vals.length = tb.arity then .ok ([], addRow st t vals)
        else .error (.arityMismatch t)
    else .error .closedDatabase
  | .select t cond =>
    if st.connOpen then
      match getTable st t with
      | none => .error (.noSuchTable t)
      | some tb =>
        .ok ((match cond with
              | none => tb.rows
              | some c => tb.rows.filter (ev c)), st)
    else .error .closedDatabase

/-- Python truthiness of the optional `data` argument of
`_execute_query` (`if data:`): `None` and the empty tuple are falsy. -/
def dataArg : Option Row → Option Row
  | none => none
  | some d => if d.isEmpty then none else some d

/-- Embedding of `DatabaseManager._execute_query`: execute the
statement (with or without a parameter tuple, per truthiness of
`data`), then `conn.commit()`, then return `cur.fetchall()`.  A
`sqlite3.Error` raised by `execute` is logged and re-raised bare
(same exception value), and the commit is skipped.  The statement text
`sql` is exactly what the facade built; `stmt` is the store model's
parse of it, since the store itself is external to the repository. -/
def _execute_query (ev : String → Row → Bool) (st : DBState)
    (sql : String) (stmt : Stmt) (data : Option Row) : OpResult (List Row) :=
  match storeExec ev st stmt with
  | .error e => ⟨.error (.store e), st, [.execute sql (dataArg data)]⟩
  | .ok (rows, st') => ⟨.ok rows, st', [.execute sql (dataArg data), .commit]⟩

/-- The `CREATE TABLE` text built by `create_table` (the f-string at
line 68 of the source). -/
def create_table_sql (table_name : String) (columns : List String) : String :=
  "CREATE TABLE IF NOT EXISTS " ++ table_name ++ " (" ++ String.intercalate ", " columns ++ ")"

/-- The `INSERT` text built by `insert_data` (the f-string at line 85
of the source), with one `?` placeholder per value. -/
def insert_sql (table_name : String) (n : Nat) : String :=
  "INSERT INTO " ++ table_name ++ " VALUES (" ++ String.intercalate ", " (List.replicate n "?") ++ ")"

/-- The `SELECT` text built by `fetch_data` (lines 104..107 of the
source): Python `if condition:` treats `None` and the empty string as
falsy, so only a non-empty condition produces a `WHERE` clause. -/
def fetch_sql (table_name : String) (condition : Option String) : String :=
  match condition with
  | some c =>
    if c.isEmpty then "SELECT * FROM " ++ table_name
    else "SELECT * FROM " ++ table_name ++ " WHERE " ++ c
  | none => "SELECT * FROM " ++ table_name

/-- The condition as the store receives it: absent when falsy
(`None` or the empty string), verbatim otherwise. -/
def normCond : Option String → Option String
  | some c => if c.isEmpty then none else some c
  | none => none

/-- Embedding of `DatabaseManager.__init__`: validate the file name,
then connect.  `connectOk` models whether `sqlite3.connect` succeeds
(an external condition); `existing` models the tables already in the
database file.  On success the facade holds an open connection. -/
def init (db_name : String) (connectOk : Bool) (existing : List StoredTable) :
    Except DBError DBState :=
  match _validate_db_name db_name with
  | some e => .error e
  | none => if connectOk then .ok ⟨true, existing⟩ else .error (.store .connectFailed)

/-- Embedding of `DatabaseManager.create_table`: validate the table
name, then every column entry, then build the DDL text and run it
through `_execute_query`; the result rows are discarded (the method
returns `None`).  Both validations happen before the `try` block, so a
validation failure executes nothing. -/
def create_table (ev : String → Row → Bool) (st : DBState)
    (table_name : String) (columns : List String) : OpResult Unit :=
  match _validate_table_name table_name with
  | some e => ⟨.error e, st, []⟩
  | none =>
    match _validate_column_names columns with
    | some e => ⟨.error e, st, []⟩
    | none =>
      let q := _execute_query ev st (create_table_sql table_name columns)
        (.createTable table_name columns) none
      ⟨q.res.map (fun _ => ()), q.st, q.events⟩

/-- Embedding of `DatabaseManager.insert_data`: validate the table
name, build the parameterized insert text with one placeholder per
value, and run it with the data tuple; the result rows are discarded. -/
def insert_data (ev : String → Row → Bool) (st : DBState)
    (table_name : String) (data : Row) : OpResult Unit :=
  match _validate_table_name table_name with
  | some e => ⟨.error e, st, []⟩
  | none =>
    let q := _execute_query ev st (insert_sql table_name data.length)
      (.insertRow table_name data) (some data)
    ⟨q.res.map (fun _ => ()), q.st, q.events⟩

/-- Embedding of `DatabaseManager.fetch_data`: validate the table
name, build the select text (with a `WHERE` clause only for a truthy
condition), run it, and return the fetched rows. -/
def fetch_data (ev : String → Row → Bool) (st : DBState)
    (table_name : String) (condition : Option String) : OpResult (List Row) :=
  match _validate_table_name table_name with
  | some e => ⟨.error e, st, []⟩
  | none =>
    _execute_query ev st (fetch_sql table_name condition)
      (.select table_name (normCond condition)) none

/-- Embedding of `DatabaseManager.close_connection`: `conn.close()`
releases the connection (sqlite's close on an owned connection does
not fail; double close is a no-op). -/
def close_connection (st : DBState) : OpResult Unit :=
  ⟨.ok (), { st with connOpen := false }, [.close]⟩

/-- Sequential insertion of a list of rows into table `t`, threading
the store state through, as the demo scenario does. -/
def insertAll (ev : String → Row → Bool) (t : String) :
    DBState → List Row → DBState
  | st, [] => st
  | st, r :: rs => insertAll ev t (insert_data ev st t r).st rs

theorem find_addRow_aux (t : String) (r : Row) (l : List StoredTable) :
    (l.map (fun tb =>
        if tb.name == t then { tb with rows := tb.rows ++ [r] } else tb)).find?
        (fun tb => tb.name == t) =
      (l.find? (fun tb => tb.name == t)).map
        (fun tb => { tb with rows := tb.rows ++ [r] }) := by
  induction l with
  | nil => rfl
  | cons hd tl ih =>
    simp only [List.map_cons]
    by_cases h : (hd.name == t) = true
    · rw [if_pos h,
        @List.find?_cons_of_pos StoredTable (fun tb => tb.name == t)
          { hd with rows := hd.rows ++ [r] } _ h,
        @List.find?_cons_of_pos StoredTable (fun tb => tb.name == t) hd _ h]
      rfl
    · rw [if_neg h,
        @List.find?_cons_of_neg StoredTable (fun tb => tb.name == t) hd _ h,
        @List.find?_cons_of_neg StoredTable (fun tb => tb.name == t) hd _ h]
      exact ih

theorem getTable_addRow (st : DBState) (t : String) (r : Row) :
    getTable (addRow st t r) t =
      (getTable st t).map (fun tb => { tb with rows := tb.rows ++ [r] }) :=
  find_addRow_aux t r st.tables

theorem insert_data_ok (ev : String → Row → Bool) (st : DBState) (t : String)
    (r : Row) (tb : StoredTable) (ht : pyIsIdentifier t = true)
    (ho : st.connOpen = true) (htb : getTable st t = some tb)
    (hr : r.length = tb.arity) :
    insert_data ev st t r =
      ⟨.ok (), addRow st t r,
       [.execute (insert_sql t r.length) (dataArg (some r)), .commit]⟩ := by
  simp [insert_data, _validate_table_name, _execute_query, storeExec, Except.map,
    ht, ho, htb, hr]

theorem fetch_data_none_ok (ev : String → Row → Bool) (st : DBState) (t : String)
    (tb : StoredTable) (ht : pyIsIdentifier t = true) (ho : st.connOpen = true)
    (htb : getTable st t = some tb) :
    (fetch_data ev st t none).res = .ok tb.rows := by
  simp [fetch_data, _validate_table_name, _execute_query, storeExec, normCond,
    ht, ho, htb]

/-- Claim C1: the spec's scenario is supposed to succeed end to end, but
the very first step already fails on the code: `create_table("students",
["id INTEGER PRIMARY KEY", "name TEXT", "age INTEGER"])` is rejected by
`_validate_column_names`, because a column definition containing spaces
is not a Python identifier.  This theorem evaluates the code at the
scenario's input: the call raises the local validation error, leaves the
store untouched and executes no statement, so the four inserts and the
two fetches of the scenario never see a `students` table. -/
theorem scenario_create_table_rejected :
    create_table (fun _ _ => false) ⟨true, []⟩ "students"
      ["id INTEGER PRIMARY KEY", "name TEXT", "age INTEGER"] =
    ⟨.error (.validation "Column name must be a valid identifier."), ⟨true, []⟩, []⟩ := by
  decide

/-- Claim C2: the claim says a column-definition string pairing a name
with a type/constraint clause is not rejected by local validation and is
concatenated verbatim into the DDL.  The code contradicts this (and its
own demo, which passes exactly such strings): `_validate_column_names`
requires every entry to be an identifier, so any entry with a
type/constraint suffix is rejected and no DDL text is ever built. -/
theorem column_definition_with_type_rejected :
    _validate_column_names ["id INTEGER PRIMARY KEY"] =
      some (.validation "Column name must be a valid identifier.") ∧
    create_table (fun _ _ => false) ⟨true, []⟩ "t" ["name TEXT"] =
      ⟨.error (.validation "Column name must be a valid identifier."), ⟨true, []⟩, []⟩ := by
  decide

/-- Claim C3: any table name that is not a valid identifier is rejected
by `_validate_table_name` in `create_table`, `insert_data` and
`fetch_data` with the local validation error, before any store
interaction: the store state is returned unchanged and the event trace
is empty, so no SQL statement is executed. -/
theorem invalid_table_name_rejected_locally (ev : String → Row → Bool)
    (st : DBState) (t : String) (cols : List String) (r : Row)
    (cond : Option String) (ht : pyIsIdentifier t = false) :
    create_table ev st t cols =
      ⟨.error (.validation "Table name must be a valid identifier."), st, []⟩ ∧
    insert_data ev st t r =
      ⟨.error (.validation "Table name must be a valid identifier."), st, []⟩ ∧
    fetch_data ev st t cond =
      ⟨.error (.validation "Table name must be a valid identifier."), st, []⟩ := by
  refine ⟨?_, ?_, ?_⟩ <;>
    simp [create_table, insert_data, fetch_data, _validate_table_name, ht]

/-- Witness for C3 at a concrete non-identifier table name. -/
theorem invalid_table_name_rejected_locally_witness :
    create_table (fun _ _ => false) ⟨true, []⟩ "drop table students" ["id"] =
      ⟨.error (.validation "Table name must be a valid identifier."), ⟨true, []⟩, []⟩ :=
  (invalid_table_name_rejected_locally (fun _ _ => false) ⟨true, []⟩
    "drop table students" ["id"] [] none (by decide)).1

/-- Claim C4 counterexample: the claim asserts there exists a
non-identifier table name (untrusted text with SQL metacharacters) that
is interpolated into the executed statement rather than rejected.  At
the canonical injection input the code does the opposite: the name fails
`_validate_table_name`, the operation raises the local validation error,
and the event trace is empty — nothing is interpolated or executed. -/
theorem table_name_injection_attempt_rejected :
    pyIsIdentifier "students; DROP TABLE students" = false ∧
    create_table (fun _ _ => false) ⟨true, []⟩ "students; DROP TABLE students" ["id"] =
      ⟨.error (.validation "Table name must be a valid identifier."), ⟨true, []⟩, []⟩ ∧
    fetch_data (fun _ _ => false) ⟨true, []⟩ "students; DROP TABLE students" none =
      ⟨.error (.validation "Table name must be a valid identifier."), ⟨true, []⟩, []⟩ := by
  decide

/-- Claim C4 (amended): table names are spliced into the statement text
by string interpolation rather than parameterized, but every table name
failing the identifier check is rejected before any statement is built
or executed, so no non-identifier table name ever reaches statement
text; the injectable surface that remains is `fetch`'s condition
argument, which for a valid table name is interpolated verbatim after
`WHERE` in the executed statement. -/
theorem table_name_validated_condition_interpolated (ev : String → Row → Bool)
    (st : DBState) (bad t c : String) (cols : List String) (r : Row)
    (cond : Option String) (hbad : pyIsIdentifier bad = false)
    (ht : pyIsIdentifier t = true) (hc : c.isEmpty = false) :
    (create_table ev st bad cols).events = [] ∧
    (insert_data ev st bad r).events = [] ∧
    (fetch_data ev st bad cond).events = [] ∧
    (fetch_data ev st t (some c)).events.head? =
      some (.execute ("SELECT * FROM " ++ t ++ " WHERE " ++ c) none) := by
  have hv : _validate_table_name t = none := by simp [_validate_table_name, ht]
  refine ⟨?_, ?_, ?_, ?_⟩
  · simp [create_table, _validate_table_name, hbad]
  · simp [insert_data, _validate_table_name, hbad]
  · simp [fetch_data, _validate_table_name, hbad]
  · unfold fetch_data
    rw [hv]
    unfold _execute_query
    cases hs : storeExec ev st (.select t (normCond (some c))) with
    | error e => simp [hs, fetch_sql, hc, dataArg]
    | ok p => simp [hs, fetch_sql, hc, dataArg]

/-- Witness for the amended C4 at concrete inputs. -/
theorem table_name_validated_condition_interpolated_witness :
    (fetch_data (fun _ _ => false) ⟨true, []⟩ "students" (some "age > 23")).events.head? =
      some (.execute "SELECT * FROM students WHERE age > 23" none) :=
  (table_name_validated_condition_interpolated (fun _ _ => false) ⟨true, []⟩
    "students; DROP TABLE students" "students" "age > 23" ["id"] [] none
    (by decide) (by decide) (by decide)).2.2.2

/-- Claim C5: for a table that exists in the store, inserting any
sequence of rows (each matching the table's arity) and then fetching
with no condition returns the table's previous rows followed by every
inserted row, in insertion order. -/
theorem inserted_rows_fetched_in_order (ev : String → Row → Bool)
    (st : DBState) (t : String) (tb : StoredTable) (rows : List Row)
    (ht : pyIsIdentifier t = true) (ho : st.connOpen = true)
    (htb : getTable st t = some tb) (hr : ∀ r ∈ rows, r.length = tb.arity) :
    (fetch_data ev (insertAll ev t st rows) t none).res = .ok (tb.rows ++ rows) := by
  induction rows generalizing st tb with
  | nil => simpa using fetch_data_none_ok ev st t tb ht ho htb
  | cons r rs ih =>
    have hlen : r.length = tb.arity := hr r (List.mem_cons_self _ _)
    have hins := insert_data_ok ev st t r tb ht ho htb hlen
    have htb2 : getTable (addRow st t r) t = some { tb with rows := tb.rows ++ [r] } := by
      rw [getTable_addRow, htb]; rfl
    have ho2 : (addRow st t r).connOpen = true := ho
    have hr2 : ∀ x ∈ rs, x.length = ({ tb with rows := tb.rows ++ [r] } : StoredTable).arity :=
      fun x hx => hr x (List.mem_cons_of_mem _ hx)
    have step := ih (addRow st t r) { tb with rows := tb.rows ++ [r] } ho2 htb2 hr2
    unfold insertAll
    rw [hins]
    simpa [List.append_assoc] using step

/-- Witness for C5: two rows inserted into an empty three-column table
are both returned by the unconditional fetch, in insertion order. -/
theorem inserted_rows_fetched_in_order_witness :
    (fetch_data (fun _ _ => false)
      (insertAll (fun _ _ => false) "students" ⟨true, [⟨"students", 3, []⟩]⟩
        [[.int 1, .text "Alice", .int 25], [.int 2, .text "Bob", .int 22]])
      "students" none).res =
    .ok [[.int 1, .text "Alice", .int 25], [.int 2, .text "Bob", .int 22]] :=
  inserted_rows_fetched_in_order (fun _ _ => false) ⟨true, [⟨"students", 3, []⟩]⟩
    "students" ⟨"students", 3, []⟩
    [[.int 1, .text "Alice", .int 25], [.int 2, .text "Bob", .int 22]]
    (by decide) (by decide) (by decide) (by decide)

/-- Claim C6: after `close_connection`, any `fetch_data` or
`insert_data` call with a valid identifier as table name reaches the
store and fails there with the closed-database store error (sqlite's
`ProgrammingError`, a `sqlite3.Error`), rather than succeeding. -/
theorem ops_after_close_raise_store_error (ev : String → Row → Bool)
    (st : DBState) (t : String) (r : Row) (cond : Option String)
    (ht : pyIsIdentifier t = true) :
    (fetch_data ev (close_connection st).st t cond).res =
      .error (.store .closedDatabase) ∧
    (insert_data ev (close_connection st).st t r).res =
      .error (.store .closedDatabase) := by
  constructor
  · simp [fetch_data, _validate_table_name, ht, close_connection, _execute_query, storeExec]
  · simp [insert_data, _validate_table_name, ht, close_connection, _execute_query,
      storeExec, Except.map]

/-- Witness for C6 at a concrete state and table name. -/
theorem ops_after_close_raise_store_error_witness :
    (fetch_data (fun _ _ => false)
      (close_connection ⟨true, [⟨"students", 3, []⟩]⟩).st "students" none).res =
      .error (.store .closedDatabase) :=
  (ops_after_close_raise_store_error (fun _ _ => false) ⟨true, [⟨"students", 3, []⟩]⟩
    "students" [] none (by decide)).1

/-- Claim C7: when the store fails on the statement an operation
issues, the operation's result is exactly that store error, re-raised
unchanged (the same error value, only carried by the facade's
`sqlite3.Error` taxonomy tag), and the operation does not return
normally; there is no retry, recovery or fallback path in the code. -/
theorem store_error_reraised_unchanged (ev : String → Row → Bool)
    (st : DBState) (t : String) (cols : List String) (r : Row)
    (cond : Option String) (e : StoreErr) (ht : pyIsIdentifier t = true)
    (hcols : _validate_column_names cols = none) :
    (storeExec ev st (.createTable t cols) = .error e →
      (create_table ev st t cols).res = .error (.store e)) ∧
    (storeExec ev st (.insertRow t r) = .error e →
      (insert_data ev st t r).res = .error (.store e)) ∧
    (storeExec ev st (.select t (normCond cond)) = .error e →
      (fetch_data ev st t cond).res = .error (.store e)) := by
  have hv : _validate_table_name t = none := by simp [_validate_table_name, ht]
  refine ⟨fun hs => ?_, fun hs => ?_, fun hs => ?_⟩
  · unfold create_table
    rw [hv, hcols]
    simp [_execute_query, hs, Except.map]
  · unfold insert_data
    rw [hv]
    simp [_execute_query, hs, Except.map]
  · unfold fetch_data
    rw [hv]
    simp [_execute_query, hs]

/-- Witness for C7: on a closed connection the store fails `CREATE
TABLE` with the closed-database error, and `create_table` re-raises
exactly that error. -/
theorem store_error_reraised_unchanged_witness :
    (create_table (fun _ _ => false) ⟨false, []⟩ "students" ["id"]).res =
      .error (.store .closedDatabase) :=
  (store_error_reraised_unchanged (fun _ _ => false) ⟨false, []⟩ "students" ["id"]
    [] none .closedDatabase (by decide) (by decide)).1 (by decide)

/-- Claim C8 counterexample: constructing the facade with a name that
does not end in `.db` fails, but with the local validation error raised
by `_validate_db_name` (a `ValueError`, the spec's ValidationError),
not with a ConnectionError from the store; in the model the result is
the validation error and is distinct from the connection-failure store
error. -/
theorem db_suffix_failure_is_validation_error :
    init "my_database.txt" true [] =
      .error (.validation "Database name must end with .db.") ∧
    init "my_database.txt" true [] ≠ .error (.store .connectFailed) := by
  decide

/-- Claim C8 (amended): constructing the facade with a name not ending
in `.db` fails with the local ValidationError of the suffix check, and
no connection to the store is opened — the outcome is the same whether
or not the store would accept a connection, because `sqlite3.connect`
is never reached. -/
theorem bad_db_name_rejected_before_connect (name : String) (connectOk : Bool)
    (existing : List StoredTable) (h : strEndsWith name ".db" = false) :
    init name connectOk existing =
      .error (.validation "Database name must end with .db.") := by
  simp [init, _validate_db_name, h]

/-- Witness for the amended C8 at a concrete malformed name. -/
theorem bad_db_name_rejected_before_connect_witness :
    init "my_database.sqlite" true [] =
      .error (.validation "Database name must end with .db.") :=
  bad_db_name_rejected_before_connect "my_database.sqlite" true [] (by decide)

/-- Claim C9: `fetch_data` with the empty-string condition behaves
identically to `fetch_data` with no condition: Python's `if condition:`
treats the empty string as falsy, so the unconditional `SELECT` text is
built (no `WHERE` clause) and the result, final state and event trace
coincide with those of the condition-less call. -/
theorem empty_condition_same_as_none (ev : String → Row → Bool)
    (st : DBState) (t : String) :
    fetch_data ev st t (some "") = fetch_data ev st t none := rfl

/-- Claim C10: every operation that reaches the store commits right
after executing its statement: whenever `create_table`, `insert_data`
or `fetch_data` returns normally, its store-boundary trace is exactly
the executed statement followed by a commit — including the read-only
fetch, which is therefore not transactionally neutral. -/
theorem commit_follows_every_execute (ev : String → Row → Bool)
    (st : DBState) (t : String) (cols : List String) (r : Row)
    (cond : Option String) (u : Unit) (rows : List Row)
    (ht : pyIsIdentifier t = true)
    (hcols : _validate_column_names cols = none) :
    ((create_table ev st t cols).res = .ok u →
      (create_table ev st t cols).events =
        [.execute (create_table_sql t cols) none, .commit]) ∧
    ((insert_data ev st t r).res = .ok u →
      (insert_data ev st t r).events =
        [.execute (insert_sql t r.length) (dataArg (some r)), .commit]) ∧
    ((fetch_data ev st t cond).res = .ok rows →
      (fetch_data ev st t cond).events =
        [.execute (fetch_sql t cond) none, .commit]) := by
  have hv : _validate_table_name t = none := by simp [_validate_table_name, ht]
  refine ⟨fun h => ?_, fun h => ?_, fun h => ?_⟩
  · unfold create_table at h ⊢
    rw [hv, hcols] at h ⊢
    cases hs : storeExec ev st (.createTable t cols) with
    | error e => rw [_execute_query, hs] at h; simp [Except.map] at h
    | ok p => simp [_execute_query, hs, dataArg]
  · unfold insert_data at h ⊢
    rw [hv] at h ⊢
    cases hs : storeExec ev st (.insertRow t r) with
    | error e => rw [_execute_query, hs] at h; simp [Except.map] at h
    | ok p => simp [_execute_query, hs]
  · unfold fetch_data at h ⊢
    rw [hv] at h ⊢
    cases hs : storeExec ev st (.select t (normCond cond)) with
    | error e => rw [_execute_query, hs] at h; simp at h
    | ok p => simp [_execute_query, hs, dataArg]

/-- Witness for C10: a successful `fetch_data` on a concrete state
executes its `SELECT` and then commits. -/
theorem commit_follows_every_execute_witness :
    (fetch_data (fun _ _ => false) ⟨true, [⟨"students", 3, []⟩]⟩ "students" none).events =
      [.execute (fetch_sql "students" none) none, .commit] :=
  (commit_follows_every_execute (fun _ _ => false) ⟨true, [⟨"students", 3, []⟩]⟩
    "students" ["id"] [] none () [] (by decide) (by decide)).2.2 (by decide)
